import Mathlib

/-!
Verification of the Action Dispatch & Concurrency Guard subsystem and its
render-component call sites (radical-ui/svelte-toolbox).

The render components under `src/runtime` and `src/unnamed` are embedded
directly from the TypeScript source.  The dispatcher (`useDispatcher` in
`event.tsx`) and the bubble-marking routine (`doBubble` in `bubble.ts`) are
not part of the source tree, only their call sites are; those two are
modelled from the specification's contract, as noted on each definition.
-/

namespace Toolbox

/-! ## Render-layer data, from `src/runtime/button.tsx` and `src/unnamed/part_000` -/

/-- From `src/runtime/button.tsx`: `export type ButtonSize = 'Small' | 'Medium' | 'Large'`. -/
inductive ButtonSize
  | Small
  | Medium
  | Large
deriving DecidableEq

/-- The `type` discriminant of `Color` from `theme.tsx` (the variants used by
`button.tsx`: `Primary`, `Fore`, `Base`, `DecorationFore`, plus the other
documented variants `Success` and `Danger`). -/
inductive ColorType
  | Primary
  | Fore
  | Base
  | DecorationFore
  | Success
  | Danger
deriving DecidableEq

/-- A `Color` value `{ type, def }` as used in `button.tsx`.  The source field
`def` is a Lean keyword, so it is spelled `defn` here. -/
structure Color where
  type : ColorType
  defn : Nat
deriving DecidableEq

/-- From `src/runtime/button.tsx` line 34:
`const color = props.color || { type: 'Primary', def: 100 }`.
A provided `Color` object is always truthy in JS, so `||` is exactly the
default on an absent field. -/
def resolveColor (c : Option Color) : Color :=
  match c with
  | none => ⟨ColorType.Primary, 100⟩
  | some c => c

/-- From `src/runtime/button.tsx` line 35: `const size = props.size || 'Medium'`.
All three `ButtonSize` strings are non-empty, hence truthy. -/
def resolveSize (s : Option ButtonSize) : ButtonSize :=
  match s with
  | none => ButtonSize.Medium
  | some s => s

/-- From `src/runtime/button.tsx` line 39:
`const scale = size === 'Large' ? 1 : size === 'Small' ? 0.6 : 0.8`. -/
def scale (s : ButtonSize) : ℚ :=
  if s = ButtonSize.Large then 1 else if s = ButtonSize.Small then 0.6 else 0.8

/-- From `src/runtime/button.tsx` line 40:
`const isDisabled = isActionDisabled || isLoading`. -/
def buttonIsDisabled (isActionDisabled isLoading : Bool) : Bool :=
  isActionDisabled || isLoading

/-- From `src/runtime/button.tsx` line 148 (the `Crumb` component):
`disabled={isLoading || isDisabled}`. -/
def crumbButtonDisabled (isLoading isDisabled : Bool) : Bool :=
  isLoading || isDisabled

/-- From `src/unnamed/part_000`: `export type HeaderSize = 'Large' | 'Medium' | 'Small'`. -/
inductive HeaderSize
  | Large
  | Medium
  | Small
deriving DecidableEq

/-- From `src/unnamed/part_000` lines 5-11: `getIconSize` returns 25 for
`'Large'`, 20 for `'Medium'` and `'Small'`, and throws `'unknown size'`
otherwise; the throw is embedded as the `Except.error` branch. -/
def getIconSize (s : HeaderSize) : Except String Nat :=
  if s = HeaderSize.Large then Except.ok 25
  else if s = HeaderSize.Medium then Except.ok 20
  else if s = HeaderSize.Small then Except.ok 20
  else Except.error "unknown size"

/-! ## Action Registry / Dispatcher

`useDispatcher` lives in `event.tsx`, which is not part of the source tree;
only its call sites in `button.tsx` and `part_000` are.  The dispatcher is
therefore modelled from the specification (spec §4.1, §5, §7). -/

/-- An action payload forwarded to the engine; the Button and Crumb call
sites dispatch the unit payload `null`, embedded as `none`. -/
abbrev Payload := Option Nat

/-- Dispatch status of one Action Key identifier: `Idle` or `InFlight`. -/
inductive Status
  | idle
  | inFlight
deriving DecidableEq

/-- Modelled from the spec: the per-identifier Dispatch State of `event.tsx`
(spec §3) — `status`, the optional last error, and the subscriber set of
components currently rendering with this key. -/
structure KeyState where
  status : Status
  lastError : Option String
  subscribers : List Nat
deriving DecidableEq

/-- Modelled from the spec: the process-wide registry of `event.tsx`, a total
map from Action Key identifiers to their Dispatch State (spec §4.1, §9). -/
structure Registry where
  states : Nat → KeyState

/-- The registry before any dispatch: every key is `Idle`, error-free and
subscriber-free. -/
def initialRegistry : Registry :=
  ⟨fun _ => ⟨Status.idle, none, []⟩⟩

/-- Point update of the registry at one key identifier. -/
def Registry.set (r : Registry) (k : Nat) (s : KeyState) : Registry :=
  ⟨fun q => if q = k then s else r.states q⟩

@[simp]
theorem Registry.states_set (r : Registry) (k q : Nat) (s : KeyState) :
    (r.set k s).states q = if q = k then s else r.states q := rfl

/-- Observable effects of the dispatcher: subscriber notifications of the new
loading state, calls on the external submission channel, resolutions arriving
back from the engine, and developer-facing console diagnostics. -/
inductive Obs
  | notify (sub : Nat) (isLoading : Bool)
  | submit (k : Nat) (p : Payload)
  | resolved (k : Nat)
  | consoleError (msg : String)
deriving DecidableEq

/-- Outcome with which the external engine resolves a submission. -/
inductive Outcome
  | success
  | failure (e : String)
deriving DecidableEq

/-- Modelled from the spec: `dispatch(payload)` of `event.tsx` (spec §4.1).
If the key is already `InFlight` the call is ignored; otherwise the key
transitions to `InFlight`, all current subscribers are synchronously notified
of the new loading state, and `(key, payload)` is forwarded to the external
submission channel. -/
def dispatch (r : Registry) (k : Nat) (p : Payload) : Registry × List Obs :=
  match (r.states k).status with
  | Status.inFlight => (r, [])
  | Status.idle =>
      (r.set k ⟨Status.inFlight, (r.states k).lastError, (r.states k).subscribers⟩,
        ((r.states k).subscribers.map fun s => Obs.notify s true) ++ [Obs.submit k p])

/-- Modelled from the spec: resolution of an in-flight submission (spec §4.1).
On success the key returns to `Idle` and the stored error is cleared; on
failure it returns to `Idle` with the error recorded; either way all current
subscribers are re-notified.  Resolution of a key with no pending dispatch
does nothing. -/
def resolve (r : Registry) (k : Nat) (o : Outcome) : Registry × List Obs :=
  match (r.states k).status with
  | Status.idle => (r, [])
  | Status.inFlight =>
      match o with
      | Outcome.success =>
          (r.set k ⟨Status.idle, none, (r.states k).subscribers⟩,
            Obs.resolved k :: ((r.states k).subscribers.map fun s => Obs.notify s false))
      | Outcome.failure e =>
          (r.set k ⟨Status.idle, some e, (r.states k).subscribers⟩,
            Obs.resolved k :: ((r.states k).subscribers.map fun s => Obs.notify s false))

/-- Modelled from the spec: a component binding to a key at mount (spec §4.1,
subscription lifecycle). -/
def subscribe (r : Registry) (k : Nat) (s : Nat) : Registry :=
  r.set k ⟨(r.states k).status, (r.states k).lastError, s :: (r.states k).subscribers⟩

/-- Modelled from the spec: a component unbinding from a key at unmount. -/
def unsubscribe (r : Registry) (k : Nat) (s : Nat) : Registry :=
  r.set k ⟨(r.states k).status, (r.states k).lastError, (r.states k).subscribers.erase s⟩

/-- What a component reads back from `useDispatcher`. -/
structure DispatcherView where
  isLoading : Bool
  isDisabled : Bool
deriving DecidableEq

/-- Modelled from the spec: the query side of `useDispatcher` (spec §4.1).
`isLoading` is true iff the key's state is `InFlight`; `isDisabled` is true
iff the key is `null`. -/
def query (r : Registry) (k : Option Nat) : DispatcherView :=
  match k with
  | none => ⟨false, true⟩
  | some k =>
      ⟨match (r.states k).status with
        | Status.inFlight => true
        | Status.idle => false,
        false⟩

/-- Modelled from the spec: the `dispatch` function handed to a component that
bound `null` (no action) is a no-op; with a key it is `dispatch` (spec §4.1). -/
def dispatchOpt (r : Registry) (k : Option Nat) (p : Payload) : Registry × List Obs :=
  match k with
  | none => (r, [])
  | some k => dispatch r k p

/-! ## Trace semantics

An execution is a list of commands: dispatch attempts, engine resolutions,
and mount/unmount subscription changes.  Running it from a registry yields the
final registry and the concatenated observable trace. -/

/-- One step of an execution. -/
inductive Cmd
  | disp (k : Nat) (p : Payload)
  | res (k : Nat) (o : Outcome)
  | mount (k : Nat) (s : Nat)
  | unmount (k : Nat) (s : Nat)

/-- Effect of one command on the registry, with its observable events. -/
def stepCmd (r : Registry) : Cmd → Registry × List Obs
  | Cmd.disp k p => dispatch r k p
  | Cmd.res k o => resolve r k o
  | Cmd.mount k s => (subscribe r k s, [])
  | Cmd.unmount k s => (unsubscribe r k s, [])

/-- Run a command list, accumulating the observable trace. -/
def run (r : Registry) : List Cmd → Registry × List Obs
  | [] => (r, [])
  | c :: cs => ((run (stepCmd r c).1 cs).1, (stepCmd r c).2 ++ (run (stepCmd r c).1 cs).2)

/-- Whether an observable event is a submission-channel call for key `k`. -/
def isSubmitFor (k : Nat) : Obs → Bool
  | Obs.submit q _ => q == k
  | _ => false

/-- Whether an observable event is an engine resolution for key `k`. -/
def isResolvedFor (k : Nat) : Obs → Bool
  | Obs.resolved q => q == k
  | _ => false

/-- Number of submission-channel calls for `k` in a trace. -/
def countSubmits (k : Nat) (l : List Obs) : Nat := l.countP (isSubmitFor k)

/-- Number of engine resolutions for `k` in a trace. -/
def countResolved (k : Nat) (l : List Obs) : Nat := l.countP (isResolvedFor k)

/-- 1 if key `k` is `InFlight` in `r`, else 0. -/
def pending (r : Registry) (k : Nat) : Nat :=
  match (r.states k).status with
  | Status.inFlight => 1
  | Status.idle => 0

/-! ## Bookkeeping lemmas for the submission-count invariant -/

theorem countSubmits_notify_map (k : Nat) (b : Bool) (l : List Nat) :
    countSubmits k (l.map fun s => Obs.notify s b) = 0 := by
  induction l with
  | nil => rfl
  | cons a l ih =>
      simp only [List.map_cons, countSubmits, List.countP_cons] at *
      simp [isSubmitFor, ih]

theorem countResolved_notify_map (k : Nat) (b : Bool) (l : List Nat) :
    countResolved k (l.map fun s => Obs.notify s b) = 0 := by
  induction l with
  | nil => rfl
  | cons a l ih =>
      simp only [List.map_cons, countResolved, List.countP_cons] at *
      simp [isResolvedFor, ih]

theorem countP_submit_comp_notify (k : Nat) (b : Bool) (l : List Nat) :
    List.countP (isSubmitFor k ∘ fun s => Obs.notify s b) l = 0 := by
  induction l with
  | nil => rfl
  | cons a l ih => simp [List.countP_cons, isSubmitFor, ih]

theorem countP_resolved_comp_notify (k : Nat) (b : Bool) (l : List Nat) :
    List.countP (isResolvedFor k ∘ fun s => Obs.notify s b) l = 0 := by
  induction l with
  | nil => rfl
  | cons a l ih => simp [List.countP_cons, isResolvedFor, ih]

theorem countSubmits_append (k : Nat) (l₁ l₂ : List Obs) :
    countSubmits k (l₁ ++ l₂) = countSubmits k l₁ + countSubmits k l₂ := by
  simp [countSubmits, List.countP_append]

theorem countResolved_append (k : Nat) (l₁ l₂ : List Obs) :
    countResolved k (l₁ ++ l₂) = countResolved k l₁ + countResolved k l₂ := by
  simp [countResolved, List.countP_append]

/-- One command preserves the balance between submission-channel calls,
engine resolutions, and the pending in-flight slot of any key. -/
theorem step_balance (r : Registry) (k : Nat) (c : Cmd) :
    countSubmits k (stepCmd r c).2 + pending r k
      = countResolved k (stepCmd r c).2 + pending (stepCmd r c).1 k := by
  cases c with
  | disp q p =>
      simp only [stepCmd, dispatch]
      cases hq : (r.states q).status with
      | inFlight => simp [countSubmits, countResolved]
      | idle =>
          by_cases hk : q = k
          · subst hk
            simp [countSubmits_append, countResolved_append, countSubmits_notify_map,
              countResolved_notify_map, countP_submit_comp_notify, countP_resolved_comp_notify, countSubmits, countResolved, isSubmitFor,
              isResolvedFor, pending, hq, List.countP_cons]
          · simp [countSubmits_append, countResolved_append, countSubmits_notify_map,
              countResolved_notify_map, countP_submit_comp_notify, countP_resolved_comp_notify, countSubmits, countResolved, isSubmitFor,
              isResolvedFor, pending, List.countP_cons, Ne.symm hk, hk]
  | res q o =>
      simp only [stepCmd, resolve]
      cases hq : (r.states q).status with
      | idle => simp [countSubmits, countResolved]
      | inFlight =>
          cases o with
          | success =>
              by_cases hk : q = k
              · subst hk
                simp [countSubmits, countResolved, countSubmits_notify_map,
                  countResolved_notify_map, countP_submit_comp_notify, countP_resolved_comp_notify, isSubmitFor, isResolvedFor, pending, hq,
                  List.countP_cons]
              · simp [countSubmits, countResolved, countSubmits_notify_map,
                  countResolved_notify_map, countP_submit_comp_notify, countP_resolved_comp_notify, isSubmitFor, isResolvedFor, pending,
                  List.countP_cons, Ne.symm hk, hk]
          | failure e =>
              by_cases hk : q = k
              · subst hk
                simp [countSubmits, countResolved, countSubmits_notify_map,
                  countResolved_notify_map, countP_submit_comp_notify, countP_resolved_comp_notify, isSubmitFor, isResolvedFor, pending, hq,
                  List.countP_cons]
              · simp [countSubmits, countResolved, countSubmits_notify_map,
                  countResolved_notify_map, countP_submit_comp_notify, countP_resolved_comp_notify, isSubmitFor, isResolvedFor, pending,
                  List.countP_cons, Ne.symm hk, hk]
  | mount q s =>
      by_cases hk : q = k
      · subst hk
        simp [stepCmd, countSubmits, countResolved, pending, subscribe]
      · simp [stepCmd, countSubmits, countResolved, pending, subscribe, Ne.symm hk, hk]
  | unmount q s =>
      by_cases hk : q = k
      · subst hk
        simp [stepCmd, countSubmits, countResolved, pending, unsubscribe]
      · simp [stepCmd, countSubmits, countResolved, pending, unsubscribe, Ne.symm hk, hk]

/-- Over a whole execution, submission-channel calls for a key are balanced by
engine resolutions plus the (at most one) still-pending in-flight slot. -/
theorem run_balance (k : Nat) (cmds : List Cmd) (r : Registry) :
    countSubmits k (run r cmds).2 + pending r k
      = countResolved k (run r cmds).2 + pending (run r cmds).1 k := by
  induction cmds generalizing r with
  | nil => rfl
  | cons c cs ih =>
      have h₁ := step_balance r k c
      have h₂ := ih (stepCmd r c).1
      simp only [run, countSubmits_append, countResolved_append]
      omega

theorem pending_le_one (r : Registry) (k : Nat) : pending r k ≤ 1 := by
  unfold pending
  cases (r.states k).status <;> simp

/-- `a` occurs strictly before `b` somewhere in `l`. -/
def precedes {α : Type} (a b : α) (l : List α) : Prop :=
  ∃ l₁ l₂ l₃, l = l₁ ++ a :: (l₂ ++ b :: l₃)

theorem subscribe_status (r : Registry) (k s : Nat) :
    ((subscribe r k s).states k).status = (r.states k).status := by
  simp [subscribe]

theorem subscribe_mem (r : Registry) (k s : Nat) :
    s ∈ ((subscribe r k s).states k).subscribers := by
  simp [subscribe]

/-- A registry in which key 0 is `InFlight` with subscriber 5, reached by an
actual mount followed by a dispatch. -/
def inflightReg : Registry :=
  (dispatch (subscribe initialRegistry 0 5) 0 none).1

/-- Claim C1: a `dispatch` for a key whose state is already `InFlight` is
ignored — the registry is unchanged and nothing is emitted, in particular no
second submission; consequently, over any execution from the initial
registry, the number of submission-channel calls for a key equals the number
of engine resolutions for it plus its (at most one) still-pending in-flight
slot, so until the first dispatch resolves the channel receives at most one
`submit` for that key, and no two `InFlight` periods for the same key
overlap. -/
theorem dispatch_single_inflight (r : Registry) (k : Nat) (p : Payload) (cmds : List Cmd)
    (h : (r.states k).status = Status.inFlight) :
    dispatch r k p = (r, []) ∧
    countSubmits k (run initialRegistry cmds).2
      = countResolved k (run initialRegistry cmds).2 + pending (run initialRegistry cmds).1 k ∧
    (countResolved k (run initialRegistry cmds).2 = 0 →
      countSubmits k (run initialRegistry cmds).2 ≤ 1) := by
  have hbal := run_balance k cmds initialRegistry
  have hz : pending initialRegistry k = 0 := rfl
  have hle := pending_le_one (run initialRegistry cmds).1 k
  refine ⟨?_, ?_, ?_⟩
  · unfold dispatch
    rw [h]
  · omega
  · intro h0
    omega

theorem dispatch_single_inflight_witness :
    dispatch inflightReg 0 none = (inflightReg, []) ∧
    countSubmits 0 (run initialRegistry [Cmd.disp 0 none, Cmd.disp 0 none]).2
      = countResolved 0 (run initialRegistry [Cmd.disp 0 none, Cmd.disp 0 none]).2
        + pending (run initialRegistry [Cmd.disp 0 none, Cmd.disp 0 none]).1 0 ∧
    (countResolved 0 (run initialRegistry [Cmd.disp 0 none, Cmd.disp 0 none]).2 = 0 →
      countSubmits 0 (run initialRegistry [Cmd.disp 0 none, Cmd.disp 0 none]).2 ≤ 1) :=
  dispatch_single_inflight inflightReg 0 none [Cmd.disp 0 none, Cmd.disp 0 none] rfl

/-- Claim C2: when a dispatch moves an idle key to `InFlight`, every current
subscriber is notified with `isLoading = true` strictly before the submission
is handed to the external engine, and on resolution (success or failure alike)
every subscriber is re-notified with `isLoading = false`. -/
theorem dispatch_notifies_subscribers (r : Registry) (k : Nat) (p : Payload) (s : Nat)
    (o : Outcome) (h : (r.states k).status = Status.idle)
    (hs : s ∈ (r.states k).subscribers) :
    precedes (Obs.notify s true) (Obs.submit k p) (dispatch r k p).2 ∧
    (((dispatch r k p).1.states k).status = Status.inFlight) ∧
    Obs.notify s false ∈ (resolve (dispatch r k p).1 k o).2 := by
  obtain ⟨l₁, l₂, hsplit⟩ := List.append_of_mem hs
  constructor
  · unfold dispatch
    rw [h]
    refine ⟨l₁.map fun q => Obs.notify q true, l₂.map fun q => Obs.notify q true, [], ?_⟩
    simp [hsplit]
  constructor
  · unfold dispatch
    rw [h]
    simp
  · unfold dispatch
    rw [h]
    unfold resolve
    simp only [Registry.states_set, if_pos rfl]
    cases o <;> simp <;> exact hs

theorem dispatch_notifies_subscribers_witness :
    precedes (Obs.notify 5 true) (Obs.submit 0 none)
      (dispatch (subscribe initialRegistry 0 5) 0 none).2 ∧
    (((dispatch (subscribe initialRegistry 0 5) 0 none).1.states 0).status
      = Status.inFlight) ∧
    Obs.notify 5 false
      ∈ (resolve (dispatch (subscribe initialRegistry 0 5) 0 none).1 0 Outcome.success).2 :=
  dispatch_notifies_subscribers (subscribe initialRegistry 0 5) 0 none 5 Outcome.success
    rfl (by simp [subscribe, initialRegistry])

/-- Claim C3: querying the dispatcher with a `null` Action Key reports a
structurally disabled, non-loading control, and the dispatch function bound to
`null` is a no-op for every payload: the registry is unchanged and the
external submission channel is never invoked. -/
theorem null_key_disabled_noop (r : Registry) (p : Payload) :
    (query r none).isDisabled = true ∧
    (query r none).isLoading = false ∧
    dispatchOpt r none p = (r, []) ∧
    (∀ k, Obs.submit k p ∉ (dispatchOpt r none p).2) := by
  refine ⟨rfl, rfl, rfl, ?_⟩
  intro k hmem
  simp [dispatchOpt] at hmem

/-- Claim C4: when the engine resolves a submission with an error, the key
returns to `Idle`, the error is recorded, every subscriber is re-notified with
`isLoading = false`, the key then reads back as neither loading nor disabled,
and a retry dispatch reaches the submission channel again.  (`resolve` is a
total function of the embedding: no exception propagates to the caller or the
rendering path.) -/
theorem engine_failure_recovers (r : Registry) (k : Nat) (e : String) (p : Payload)
    (h : (r.states k).status = Status.inFlight) :
    ((resolve r k (Outcome.failure e)).1.states k).status = Status.idle ∧
    ((resolve r k (Outcome.failure e)).1.states k).lastError = some e ∧
    (∀ s, s ∈ (r.states k).subscribers →
      Obs.notify s false ∈ (resolve r k (Outcome.failure e)).2) ∧
    (query (resolve r k (Outcome.failure e)).1 (some k)).isLoading = false ∧
    (query (resolve r k (Outcome.failure e)).1 (some k)).isDisabled = false ∧
    Obs.submit k p ∈ (dispatch (resolve r k (Outcome.failure e)).1 k p).2 := by
  unfold resolve
  rw [h]
  refine ⟨by simp, by simp, ?_, ?_, rfl, ?_⟩
  · intro s hs
    simp only [List.mem_cons, List.mem_map]
    exact Or.inr ⟨s, hs, rfl⟩
  · simp [query]
  · unfold dispatch
    simp [query]

theorem engine_failure_recovers_witness :
    ((resolve inflightReg 0 (Outcome.failure "boom")).1.states 0).status = Status.idle ∧
    ((resolve inflightReg 0 (Outcome.failure "boom")).1.states 0).lastError = some "boom" ∧
    (∀ s, s ∈ (inflightReg.states 0).subscribers →
      Obs.notify s false ∈ (resolve inflightReg 0 (Outcome.failure "boom")).2) ∧
    (query (resolve inflightReg 0 (Outcome.failure "boom")).1 (some 0)).isLoading = false ∧
    (query (resolve inflightReg 0 (Outcome.failure "boom")).1 (some 0)).isDisabled = false ∧
    Obs.submit 0 none ∈ (dispatch (resolve inflightReg 0 (Outcome.failure "boom")).1 0 none).2 :=
  engine_failure_recovers inflightReg 0 "boom" none rfl

/-- Claim C5: while a key is `InFlight`, every subscriber — including one that
mounts mid-flight — reads `isLoading = true` from the dispatcher, and both
rendered controls (`ButtonRender`'s `isActionDisabled || isLoading` and
`Crumb`'s `isLoading || isDisabled`) therefore render disabled. -/
theorem inflight_renders_disabled (r : Registry) (k s : Nat)
    (h : (r.states k).status = Status.inFlight) :
    (query r (some k)).isLoading = true ∧
    buttonIsDisabled (query r (some k)).isDisabled (query r (some k)).isLoading = true ∧
    crumbButtonDisabled (query r (some k)).isLoading (query r (some k)).isDisabled = true ∧
    (query (subscribe r k s) (some k)).isLoading = true ∧
    buttonIsDisabled (query (subscribe r k s) (some k)).isDisabled
      (query (subscribe r k s) (some k)).isLoading = true ∧
    crumbButtonDisabled (query (subscribe r k s) (some k)).isLoading
      (query (subscribe r k s) (some k)).isDisabled = true := by
  have hs : ((subscribe r k s).states k).status = Status.inFlight := by
    rw [subscribe_status, h]
  refine ⟨?_, ?_, ?_, ?_, ?_, ?_⟩ <;>
    simp [query, h, hs, buttonIsDisabled, crumbButtonDisabled]

theorem inflight_renders_disabled_witness :
    (query inflightReg (some 0)).isLoading = true ∧
    buttonIsDisabled (query inflightReg (some 0)).isDisabled
      (query inflightReg (some 0)).isLoading = true ∧
    crumbButtonDisabled (query inflightReg (some 0)).isLoading
      (query inflightReg (some 0)).isDisabled = true ∧
    (query (subscribe inflightReg 0 7) (some 0)).isLoading = true ∧
    buttonIsDisabled (query (subscribe inflightReg 0 7) (some 0)).isDisabled
      (query (subscribe inflightReg 0 7) (some 0)).isLoading = true ∧
    crumbButtonDisabled (query (subscribe inflightReg 0 7) (some 0)).isLoading
      (query (subscribe inflightReg 0 7) (some 0)).isDisabled = true :=
  inflight_renders_disabled inflightReg 0 7 rfl

/-! ## Event Bubbling

`doBubble` lives in `bubble.ts`, which is not part of the source tree; only
its call site in `button.tsx` line 71 is.  The marker mechanism is modelled
from the specification (spec §3 "Bubble Marker", §4.2). -/

/-- Modelled from the spec: the Bubble Marker — ephemeral per-event metadata
carrying the original target element and the originating gesture. -/
structure Marker where
  target : Nat
  gesture : Nat
deriving DecidableEq

/-- A DOM click event instance: the user gesture it belongs to and the marker
slot, empty until an interactive descendant marks it. -/
structure DomEvent where
  gesture : Nat
  marker : Option Marker
deriving DecidableEq

/-- Modelled from the spec: `Mark(sourceElement, event)` of `bubble.ts`
(`doBubble`, spec §4.2) — attaches the Bubble Marker to the event with the
source element as target, synchronously; an already-marked event is left
untouched (the marker is set at most once, at the innermost element). -/
def mark (source : Nat) (e : DomEvent) : DomEvent :=
  match e.marker with
  | some _ => e
  | none => ⟨e.gesture, some ⟨source, e.gesture⟩⟩

/-- Modelled from the spec: `Consume(ancestorElement, event)` (spec §4.2) —
an ancestor listener reads the marker, never mutating the event. -/
def consume (e : DomEvent) : Option Marker := e.marker

/-- The event created fresh for a new user gesture: its marker slot is empty. -/
def freshEvent (g : Nat) : DomEvent := ⟨g, none⟩

/-- What each ancestor listener on the propagation chain observes: native
propagation hands every listener the same event instance. -/
def propagate (e : DomEvent) (chain : List Nat) : List (Option Marker) :=
  chain.map fun _ => consume e

/-- Claim C8: the Bubble Marker is attached at most once per gesture — marking
an unmarked event installs the innermost element as target, a second mark
leaves the event unchanged (never overwritten), every ancestor listener on the
same propagation chain observes that same marker, and a fresh event of another
gesture carries no marker from the first. -/
theorem bubble_marker_once (e : DomEvent) (src src2 : Nat) (chain : List Nat) (g2 : Nat)
    (h : e.marker = none) :
    (mark src e).marker = some ⟨src, e.gesture⟩ ∧
    mark src2 (mark src e) = mark src e ∧
    (∀ o ∈ propagate (mark src e) chain, o = some ⟨src, e.gesture⟩) ∧
    consume (freshEvent g2) = none := by
  have hm : mark src e = ⟨e.gesture, some ⟨src, e.gesture⟩⟩ := by
    unfold mark
    rw [h]
  refine ⟨by rw [hm], by rw [hm]; rfl, ?_, rfl⟩
  intro o ho
  simp only [propagate, hm, consume, List.mem_map] at ho
  obtain ⟨_, _, rfl⟩ := ho
  rfl

theorem bubble_marker_once_witness :
    (mark 1 (freshEvent 0)).marker = some ⟨1, (freshEvent 0).gesture⟩ ∧
    mark 2 (mark 1 (freshEvent 0)) = mark 1 (freshEvent 0) ∧
    (∀ o ∈ propagate (mark 1 (freshEvent 0)) [3, 4],
      o = some ⟨1, (freshEvent 0).gesture⟩) ∧
    consume (freshEvent 7) = none :=
  bubble_marker_once (freshEvent 0) 1 2 [3, 4] 7 rfl

/-! ## Click handlers of the render components, from `src/runtime/button.tsx` -/

/-- One call made inside a click handler invocation, in program order. -/
inductive ClickStep
  | markStep
  | dispatchStep
  | errorLogStep (msg : String)
deriving DecidableEq

/-- From `src/runtime/button.tsx` lines 68-73, the `onClick` handler of
`ButtonRender`: with no bound event it logs
`'button was clicked while disabled'` and returns; with a bound event it calls
`doBubble(event.currentTarget, event)` and then `dispatch(null)`, in that
order, synchronously in the same invocation. -/
def buttonOnClick (event : Option Nat) : List ClickStep :=
  match event with
  | none => [ClickStep.errorLogStep "button was clicked while disabled"]
  | some _ => [ClickStep.markStep, ClickStep.dispatchStep]

/-- From `src/runtime/button.tsx` line 150, the `onClick` handler of `Crumb`:
`onClick={() => dispatch(null)}` — it calls `dispatch(null)` and nothing
else; in particular it never calls `doBubble`. -/
def crumbOnClick : List ClickStep := [ClickStep.dispatchStep]

/-- Claim C6 counterexample: the claim asserts that every interactive render
component marks the event before dispatching, but `Crumb`'s click handler
(`src/runtime/button.tsx` line 150) invokes the dispatch without ever calling
the bubble-marking operation. -/
theorem crumb_click_never_marks :
    ClickStep.dispatchStep ∈ crumbOnClick ∧ ClickStep.markStep ∉ crumbOnClick := by
  constructor
  · simp [crumbOnClick]
  · simp [crumbOnClick]

/-- Claim C6 (amended): `ButtonRender`'s click handler with a bound Action Key
calls the bubble-marking operation strictly before `dispatch`, synchronously
within the same handler invocation — while `Crumb`'s click handler calls
`dispatch` alone, without marking. -/
theorem button_marks_before_dispatch (k : Nat) :
    buttonOnClick (some k) = [ClickStep.markStep, ClickStep.dispatchStep] ∧
    precedes ClickStep.markStep ClickStep.dispatchStep (buttonOnClick (some k)) ∧
    crumbOnClick = [ClickStep.dispatchStep] := by
  exact ⟨rfl, ⟨[], [], [], rfl⟩, rfl⟩

/-- Semantics of `ButtonRender`'s click handler against the dispatcher and the
event, from `src/runtime/button.tsx` lines 68-73: the guard on line 69 logs a
console diagnostic and returns when no event is bound; otherwise
`doBubble(event.currentTarget, event)` marks the event and `dispatch(null)`
runs against the registry. -/
def runButtonClick (r : Registry) (event : Option Nat) (target : Nat) (e : DomEvent) :
    Registry × DomEvent × List Obs :=
  match event with
  | none => (r, e, [Obs.consoleError "button was clicked while disabled"])
  | some k => ((dispatch r k none).1, mark target e, (dispatch r k none).2)

/-- Claim C7: a click reaching `ButtonRender`'s handler with no bound Action
Key leaves the registry and the event untouched and emits only the console
diagnostic `'button was clicked while disabled'` — the external submission
channel is never invoked and (the handler being a total function of the
embedding) no exception is thrown. -/
theorem button_null_click_safe (r : Registry) (target : Nat) (e : DomEvent) :
    runButtonClick r none target e
      = (r, e, [Obs.consoleError "button was clicked while disabled"]) ∧
    (∀ k p, Obs.submit k p ∉ (runButtonClick r none target e).2.2) ∧
    (∀ s b, Obs.notify s b ∉ (runButtonClick r none target e).2.2) ∧
    buttonOnClick none = [ClickStep.errorLogStep "button was clicked while disabled"] := by
  refine ⟨rfl, ?_, ?_, rfl⟩
  · intro k p hmem
    simp [runButtonClick] at hmem
  · intro s b hmem
    simp [runButtonClick] at hmem

/-! ## Claims about the render-layer defaults -/

/-- Claim C9: `ButtonRender` defaults — an absent `color` resolves to
`Primary` with `def` 100, an absent `size` resolves to `Medium`, and the
layout scale is 1 for `Large`, 0.8 for `Medium` and 0.6 for `Small`, so the
default size renders at scale 0.8; a provided color or size is passed
through unchanged. -/
theorem buttonRender_defaults :
    resolveColor none = ⟨ColorType.Primary, 100⟩ ∧
    resolveSize none = ButtonSize.Medium ∧
    scale ButtonSize.Large = 1 ∧
    scale ButtonSize.Medium = 0.8 ∧
    scale ButtonSize.Small = 0.6 ∧
    scale (resolveSize none) = 0.8 ∧
    (∀ c, resolveColor (some c) = c) ∧
    (∀ s, resolveSize (some s) = s) := by
  refine ⟨rfl, rfl, by simp [scale], by simp [scale], by simp [scale],
    by simp [scale, resolveSize], fun c => rfl, fun s => rfl⟩

/-- Claim C10: `getIconSize` is total on the `HeaderSize` type — it returns
25 for `Large` and 20 for `Medium` and `Small`, and its throwing branch is
unreachable for well-typed input. -/
theorem getIconSize_never_throws (s : HeaderSize) :
    getIconSize s = Except.ok (if s = HeaderSize.Large then 25 else 20) ∧
    (∀ e, getIconSize s ≠ Except.error e) := by
  cases s <;> simp [getIconSize]

end Toolbox
